import Mathlib

/-!
Shallow embedding of `api/main.py` (a two-endpoint FastAPI relay) and
verification of its behavioral contract.

The module holds two request handlers:

* `getViews` — GET `/get_views`: performs one outbound GET to
  `{COUNTER_URL}/up` with a bearer `Authorization` header, parses the
  response body as JSON, and returns `{"count": data["data"]["up_count"] + 1}`;
  on any exception it returns `{"count": -1}`.
* `stats` — GET `/get_leetcode_stats`: performs one outbound GET to a fixed
  stats URL and returns `{"data": <parsed body>}`; on any exception it
  returns `{"data": {"totalSolved": "undefined"}}`.

Handlers are embedded as programs in a small HTTP-effect type `Prog`,
interpreted against an oracle `Request → FetchResult` that chooses the
outcome of each outbound call; the interpreter also records the list of
requests performed, so that statements about how many calls a handler
makes are provable.
-/

namespace Relay

/-- Values produced by Python's `response.json()` (JSON numbers appearing in
the claims are integers, so numbers are embedded as `Int`). -/
inductive Json where
  | null : Json
  | boolean : Bool → Json
  | int : Int → Json
  | str : String → Json
  | arr : List Json → Json
  | obj : List (String × Json) → Json

/-- Lookup of a key in the field list of a parsed JSON object. -/
def lookupField : List (String × Json) → String → Option Json
  | [], _ => none
  | (k, v) :: rest, key => if k = key then some v else lookupField rest key

/-- Python subscript `j[key]` on a parsed JSON value: `some v` when `j` is an
object binding `key`; `none` when that subscript raises (`KeyError` on a
missing key, `TypeError` on a non-dict). -/
def Json.getField : Json → String → Option Json
  | .obj fields, key => lookupField fields key
  | _, _ => none

/-- Whether a parsed JSON value is an object carrying the given key. -/
def Json.hasField (j : Json) (key : String) : Bool :=
  (j.getField key).isSome

/-- An upstream HTTP response: its status code, and the outcome of calling
`resp.json()` on it (`some` parsed value, or `none` when the body is not
valid JSON and `.json()` raises). -/
structure HttpResponse where
  status : Nat
  jsonBody : Option Json

/-- Outcome of `requests.get`: either the call itself raises (connection
error and the like), or it yields a response — `requests` does not raise on
a non-2xx status. -/
inductive FetchResult where
  | failure : FetchResult
  | success : HttpResponse → FetchResult

/-- An outbound HTTP GET request: target URL and the headers passed. -/
structure Request where
  url : String
  headers : List (String × String)

/-- The exceptions the handler bodies can raise, all caught by the
`except Exception` clauses. -/
inductive PyExn where
  | requestError : PyExn
  | jsonError : PyExn
  | keyError : PyExn
  | typeError : PyExn

/-- Module-level constant `COUNTER_URL` from `main.py`. -/
def COUNTER_URL : String :=
  "https://api.counterapi.dev/v2/muzamil-sulemans-team-1761/portfolio-views-1023"

/-- The fixed stats URL requested by the `/get_leetcode_stats` handler. -/
def STATS_URL : String := "https://alfa-leetcode-api.onrender.com/KYFmk4en0i/solved"

/-- Module-level `API_KEY = os.getenv("API_KEY")`, over an explicit
environment. -/
def API_KEY (env : String → Option String) : Option String := env "API_KEY"

/-- How a Python f-string renders an `os.getenv` result: the string itself,
or the text `"None"` when the variable is absent. -/
def pyStr : Option String → String
  | some s => s
  | none => "None"

/-- Module-level `headers = {"Authorization": f"Bearer {API_KEY}"}`. -/
def headers (env : String → Option String) : List (String × String) :=
  [("Authorization", "Bearer " ++ pyStr (API_KEY env))]

/-- The one request `/get_views` performs: `requests.get(f"{COUNTER_URL}/up",
headers=headers)`. -/
def viewsRequest (env : String → Option String) : Request :=
  { url := COUNTER_URL ++ "/up", headers := headers env }

/-- The one request `/get_leetcode_stats` performs (no explicit headers). -/
def statsRequest : Request := { url := STATS_URL, headers := [] }

/-- A CORS middleware configuration as `CORSMiddleware` would receive it. -/
structure CORSPolicy where
  allow_origins : List String
  allow_credentials : Bool
  allow_methods : List String
  allow_headers : List String

/-- CORS middleware registered on the app. `main.py` imports
`CORSMiddleware` (line 3) but contains no `app.add_middleware` call, so
nothing is registered. -/
def appMiddlewares : List CORSPolicy := []

/-- Whether some registered CORS policy allows the given request origin
(via a wildcard or an exact entry); with no policy, no origin is allowed
and no `Access-Control-Allow-Origin` header is emitted. -/
def corsAllowsOrigin (ms : List CORSPolicy) (origin : String) : Bool :=
  ms.any (fun p => p.allow_origins.contains "*" || p.allow_origins.contains origin)

/-- What a handler returns to the framework: FastAPI serializes a returned
dict with status 200 unless overridden, which these routes never do. -/
structure HandlerResponse where
  status : Nat
  body : Json

/-- The `{"count": -1}` sentinel of the `/get_views` failure branch. -/
def countSentinel : Json := Json.obj [("count", Json.int (-1))]

/-- The `{"data": {"totalSolved": "undefined"}}` sentinel of the
`/get_leetcode_stats` failure branch. -/
def statsSentinel : Json :=
  Json.obj [("data", Json.obj [("totalSolved", Json.str "undefined")])]

/-- Body of the `try` block of `getViews`, given the outcome of its one
outbound call: `data = resp.json()`, then
`return {"count": data["data"]["up_count"] + 1}`. Each fallible step raises
the corresponding exception; Python's `+ 1` succeeds on `int` and on `bool`
(a subclass of `int`) and raises `TypeError` on the other JSON shapes. -/
def getViewsTry (f : FetchResult) : Except PyExn Json :=
  match f with
  | .failure => .error .requestError
  | .success resp =>
    match resp.jsonBody with
    | none => .error .jsonError
    | some data =>
      match data.getField "data" with
      | none => .error .keyError
      | some d =>
        match d.getField "up_count" with
        | none => .error .keyError
        | some v =>
          match v with
          | .int n => .ok (Json.obj [("count", Json.int (n + 1))])
          | .boolean b => .ok (Json.obj [("count", Json.int ((if b then 1 else 0) + 1))])
          | _ => .error .typeError

/-- Body of the `try` block of `stats`, given the outcome of its one
outbound call: `data = resp.json()`, then `return {"data": data}`. -/
def statsTry (f : FetchResult) : Except PyExn Json :=
  match f with
  | .failure => .error .requestError
  | .success resp =>
    match resp.jsonBody with
    | none => .error .jsonError
    | some data => .ok (Json.obj [("data", data)])

/-- A handler as a program over the HTTP effect: it either returns a value
or performs one outbound GET and continues on its outcome. -/
inductive Prog (α : Type) where
  | ret : α → Prog α
  | get : Request → (FetchResult → Prog α) → Prog α

/-- Run a handler program against an oracle fixing the outcome of every
outbound call; also return the list of requests performed, in order. -/
def Prog.run {α : Type} : Prog α → (Request → FetchResult) → α × List Request
  | .ret a, _ => (a, [])
  | .get r k, http =>
    let rest := (k (http r)).run http
    (rest.1, r :: rest.2)

/-- The `/get_views` handler as a program: one GET to `{COUNTER_URL}/up`
with the module-level headers, then the `try`/`except` logic around it. -/
def getViewsProg (env : String → Option String) : Prog HandlerResponse :=
  .get (viewsRequest env) (fun f =>
    .ret (match getViewsTry f with
      | .ok body => { status := 200, body := body }
      | .error _ => { status := 200, body := countSentinel }))

/-- The `/get_leetcode_stats` handler as a program: one GET to the fixed
stats URL, then the `try`/`except` logic around it. -/
def statsProg : Prog HandlerResponse :=
  .get statsRequest (fun f =>
    .ret (match statsTry f with
      | .ok body => { status := 200, body := body }
      | .error _ => { status := 200, body := statsSentinel }))

/-- Response of one invocation of the `/get_views` handler. -/
def getViews (env : String → Option String) (http : Request → FetchResult) :
    HandlerResponse :=
  ((getViewsProg env).run http).1

/-- Requests performed by one invocation of the `/get_views` handler. -/
def getViewsTrace (env : String → Option String) (http : Request → FetchResult) :
    List Request :=
  ((getViewsProg env).run http).2

/-- Response of one invocation of the `/get_leetcode_stats` handler. -/
def stats (http : Request → FetchResult) : HandlerResponse :=
  (statsProg.run http).1

/-- Requests performed by one invocation of the `/get_leetcode_stats`
handler. -/
def statsTrace (http : Request → FetchResult) : List Request :=
  (statsProg.run http).2

/-- Environment binding a concrete API key, for concrete evaluations. -/
def envWithKey : String → Option String := fun _ => some "token-1023"

/-- Environment with no `API_KEY` binding. -/
def envNoKey : String → Option String := fun _ => none

/-- A successful counter response carrying `data.up_count = 1022`. -/
def goodCounterResp : HttpResponse :=
  { status := 200
    jsonBody := some (Json.obj [("data", Json.obj [("up_count", Json.int 1022)])]) }

/-- A successful stats response with an arbitrary payload shape. -/
def goodStatsResp : HttpResponse :=
  { status := 200
    jsonBody := some (Json.obj [("solvedProblem", Json.int 150), ("extra", Json.null)]) }

/-- A 401 rejection from the counter service: a JSON error body with no
`data` field. -/
def unauthorizedResp : HttpResponse :=
  { status := 401, jsonBody := some (Json.obj [("code", Json.str "unauthorized")]) }

/-- A 500 upstream response whose body nevertheless parses and carries
`data.up_count = 7`. -/
def errorStatusResp : HttpResponse :=
  { status := 500
    jsonBody := some (Json.obj [("data", Json.obj [("up_count", Json.int 7)])]) }

/-- C1: when the outbound GET of `/get_views` succeeds, its body parses as
JSON, and the nested `data.up_count` field holds the integer `n`, the
handler returns status 200 with body `{"count": n + 1}`. -/
theorem get_views_increments (env : String → Option String)
    (http : Request → FetchResult) (resp : HttpResponse) (j d : Json) (n : Int)
    (hf : http (viewsRequest env) = .success resp)
    (hj : resp.jsonBody = some j)
    (hd : j.getField "data" = some d)
    (hu : d.getField "up_count" = some (Json.int n)) :
    getViews env http =
      { status := 200, body := Json.obj [("count", Json.int (n + 1))] } := by
  simp [getViews, getViewsProg, Prog.run, hf, getViewsTry, hj, hd, hu]

/-- Witness for C1: a concrete upstream response with `up_count = 1022`
yields `{"count": 1023}`. -/
theorem get_views_increments_witness :
    getViews envWithKey (fun _ => .success goodCounterResp) =
      { status := 200, body := Json.obj [("count", Json.int (1022 + 1))] } :=
  get_views_increments envWithKey (fun _ => .success goodCounterResp)
    goodCounterResp _ _ 1022 rfl rfl rfl rfl

/-- C2: when the body of the `try` block of `/get_views` raises any
exception — the network call, the JSON parse, or the field access — the
handler catches it and returns status 200 with body `{"count": -1}`; the
handler is a total function, so nothing propagates. -/
theorem get_views_error_sentinel (env : String → Option String)
    (http : Request → FetchResult) (e : PyExn)
    (h : getViewsTry (http (viewsRequest env)) = .error e) :
    getViews env http = { status := 200, body := Json.obj [("count", Json.int (-1))] } := by
  simp [getViews, getViewsProg, Prog.run, h, countSentinel]

/-- Witness for C2: a raised network call yields the `-1` sentinel. -/
theorem get_views_error_sentinel_witness :
    getViews envWithKey (fun _ => .failure) =
      { status := 200, body := Json.obj [("count", Json.int (-1))] } :=
  get_views_error_sentinel envWithKey (fun _ => .failure) .requestError rfl

/-- C3: when the outbound GET of `/get_leetcode_stats` succeeds and its body
parses as the JSON value `v`, the handler returns status 200 with body
`{"data": v}`, with `v` passed through verbatim. -/
theorem stats_verbatim (http : Request → FetchResult) (resp : HttpResponse) (v : Json)
    (hf : http statsRequest = .success resp)
    (hj : resp.jsonBody = some v) :
    stats http = { status := 200, body := Json.obj [("data", v)] } := by
  simp [stats, statsProg, Prog.run, hf, statsTry, hj]

/-- Witness for C3: a concrete stats payload is returned verbatim under
the `data` key. -/
theorem stats_verbatim_witness :
    stats (fun _ => .success goodStatsResp) =
      { status := 200
        body := Json.obj [("data",
          Json.obj [("solvedProblem", Json.int 150), ("extra", Json.null)])] } :=
  stats_verbatim (fun _ => .success goodStatsResp) goodStatsResp _ rfl rfl

/-- C4: when the body of the `try` block of `/get_leetcode_stats` raises any
exception — the network call or the JSON parse — the handler catches it and
returns status 200 with body `{"data": {"totalSolved": "undefined"}}`. -/
theorem stats_error_sentinel (http : Request → FetchResult) (e : PyExn)
    (h : statsTry (http statsRequest) = .error e) :
    stats http =
      { status := 200
        body := Json.obj [("data", Json.obj [("totalSolved", Json.str "undefined")])] } := by
  simp [stats, statsProg, Prog.run, h, statsSentinel]

/-- Witness for C4: an unparseable stats body yields the fallback object. -/
theorem stats_error_sentinel_witness :
    stats (fun _ => .success { status := 200, jsonBody := none }) =
      { status := 200
        body := Json.obj [("data", Json.obj [("totalSolved", Json.str "undefined")])] } :=
  stats_error_sentinel (fun _ => .success { status := 200, jsonBody := none })
    .jsonError rfl

/-- C5 (counterexample to the claim as stated): the source imports
`CORSMiddleware` but never registers it, so the app carries no middleware
and no request origin is allowed by any CORS policy — in particular the
arbitrary origin `https://example.com` is not allowed. -/
theorem cors_policy_not_applied :
    appMiddlewares = [] ∧
      corsAllowsOrigin appMiddlewares "https://example.com" = false :=
  ⟨rfl, rfl⟩

/-- C6: when the `API_KEY` environment variable is absent, the
`Authorization` header sent to the counter service is the literal
`"Bearer None"` (no valid credential), and whenever the resulting upstream
interaction fails in any way, the handler returns the `{"count": -1}`
sentinel through the same `except` path as every other error. -/
theorem missing_key_unauthenticated (env : String → Option String)
    (http : Request → FetchResult) (e : PyExn)
    (henv : env "API_KEY" = none)
    (hfail : getViewsTry (http (viewsRequest env)) = .error e) :
    headers env = [("Authorization", "Bearer None")] ∧
      getViews env http = { status := 200, body := countSentinel } := by
  constructor
  · simp [headers, API_KEY, henv, pyStr]
  · simp [getViews, getViewsProg, Prog.run, hfail]

/-- Witness for C6: with the key absent and the upstream rejecting the
call with a 401 error body, the handler returns the sentinel. -/
theorem missing_key_unauthenticated_witness :
    headers envNoKey = [("Authorization", "Bearer None")] ∧
      getViews envNoKey (fun _ => .success unauthorizedResp) =
        { status := 200, body := countSentinel } :=
  missing_key_unauthenticated envNoKey (fun _ => .success unauthorizedResp)
    .keyError rfl rfl

/-- Every value the `try` block of `/get_views` can return is an object
carrying the `count` key. -/
theorem getViewsTry_ok_hasCount (f : FetchResult) (j : Json)
    (h : getViewsTry f = .ok j) : j.hasField "count" = true := by
  unfold getViewsTry at h
  repeat' split at h
  all_goals first
    | exact Except.noConfusion h
    | (injection h with h; subst h;
       simp [Json.hasField, Json.getField, lookupField])

/-- C7: on every invocation of either handler, under every upstream
outcome, the returned body is an object containing the `count` field (for
`/get_views`) or the `data` field (for `/get_leetcode_stats`). -/
theorem response_fields_always_present (env : String → Option String)
    (http : Request → FetchResult) :
    (getViews env http).body.hasField "count" = true ∧
      (stats http).body.hasField "data" = true := by
  constructor
  · show (((getViewsProg env).run http).1).body.hasField "count" = true
    simp only [getViewsProg, Prog.run]
    cases hok : getViewsTry (http (viewsRequest env)) with
    | ok j => simpa using getViewsTry_ok_hasCount _ j hok
    | error e => simp [countSentinel, Json.hasField, Json.getField, lookupField]
  · show ((statsProg.run http).1).body.hasField "data" = true
    simp only [statsProg, Prog.run]
    cases hok : statsTry (http statsRequest) with
    | ok j =>
      unfold statsTry at hok
      repeat' split at hok
      all_goals first
        | exact Except.noConfusion hok
        | (injection hok with hok; subst hok;
           simp [Json.hasField, Json.getField, lookupField])
    | error e => simp [statsSentinel, Json.hasField, Json.getField, lookupField]

/-- C8: under every oracle, each invocation of `/get_views` performs exactly
the single GET to `{COUNTER_URL}/up`, and each invocation of
`/get_leetcode_stats` performs exactly the single GET to the stats URL —
never zero requests, never more than one, whatever the outcome. -/
theorem exactly_one_outbound_request (env : String → Option String)
    (http : Request → FetchResult) :
    getViewsTrace env http = [viewsRequest env] ∧
      statsTrace http = [statsRequest] :=
  ⟨rfl, rfl⟩

/-- C9: both handlers are pure functions of the single upstream outcome
they observe: two invocations whose oracles agree on the handler's one
request return equal responses, and each handler's trace is its own fixed
request only (the counter URL for `/get_views`, the stats URL for
`/get_leetcode_stats`), so neither handler triggers the other's call and
no invocation depends on any prior one. -/
theorem handlers_stateless_deterministic (env : String → Option String)
    (http1 http2 : Request → FetchResult)
    (hv : http1 (viewsRequest env) = http2 (viewsRequest env))
    (hs : http1 statsRequest = http2 statsRequest) :
    getViews env http1 = getViews env http2 ∧
      stats http1 = stats http2 ∧
      getViewsTrace env http1 = [viewsRequest env] ∧
      statsTrace http1 = [statsRequest] := by
  refine ⟨?_, ?_, rfl, rfl⟩
  · simp [getViews, getViewsProg, Prog.run, hv]
  · simp [stats, statsProg, Prog.run, hs]

/-- Witness for C9: two distinct oracles agreeing on the handlers' own
requests give equal responses. -/
theorem handlers_stateless_deterministic_witness :
    getViews envWithKey (fun _ => .success goodCounterResp) =
        getViews envWithKey (fun r =>
          if r.url = "http://other.example" then .failure
          else .success goodCounterResp) ∧
      stats (fun _ => .success goodCounterResp) =
        stats (fun r =>
          if r.url = "http://other.example" then .failure
          else .success goodCounterResp) ∧
      getViewsTrace envWithKey (fun _ => .success goodCounterResp) =
        [viewsRequest envWithKey] ∧
      statsTrace (fun _ => .success goodCounterResp) = [statsRequest] :=
  handlers_stateless_deterministic envWithKey
    (fun _ => .success goodCounterResp)
    (fun r => if r.url = "http://other.example" then .failure
              else .success goodCounterResp)
    (by simp [viewsRequest, COUNTER_URL]) (by simp [statsRequest, STATS_URL])

/-- C10: neither handler inspects the upstream status code — the response
of each handler is unchanged when only the status of the upstream response
varies — so an upstream 500 whose body nevertheless parses (and, for
`/get_views`, carries an integer `data.up_count`) is handled as a success,
not mapped to a sentinel. -/
theorem status_code_never_inspected (env : String → Option String)
    (j d : Json) (n : Int)
    (hd : j.getField "data" = some d)
    (hu : d.getField "up_count" = some (Json.int n)) :
    (∀ (s s' : Nat) (b : Option Json),
      getViews env (fun _ => .success { status := s, jsonBody := b }) =
          getViews env (fun _ => .success { status := s', jsonBody := b }) ∧
        stats (fun _ => .success { status := s, jsonBody := b }) =
          stats (fun _ => .success { status := s', jsonBody := b })) ∧
      getViews env (fun _ => .success { status := 500, jsonBody := some j }) =
        { status := 200, body := Json.obj [("count", Json.int (n + 1))] } ∧
      stats (fun _ => .success { status := 500, jsonBody := some j }) =
        { status := 200, body := Json.obj [("data", j)] } := by
  refine ⟨fun s s' b => ⟨rfl, rfl⟩, ?_, ?_⟩
  · exact get_views_increments env _ _ j d n rfl rfl hd hu
  · exact stats_verbatim _ _ j rfl rfl

/-- Witness for C10: a 500 response carrying `data.up_count = 7` is treated
as a success by `/get_views`, and its body is passed through by
`/get_leetcode_stats`. -/
theorem status_code_never_inspected_witness :
    (∀ (s s' : Nat) (b : Option Json),
      getViews envWithKey (fun _ => .success { status := s, jsonBody := b }) =
          getViews envWithKey (fun _ => .success { status := s', jsonBody := b }) ∧
        stats (fun _ => .success { status := s, jsonBody := b }) =
          stats (fun _ => .success { status := s', jsonBody := b })) ∧
      getViews envWithKey (fun _ => .success errorStatusResp) =
        { status := 200, body := Json.obj [("count", Json.int (7 + 1))] } ∧
      stats (fun _ => .success errorStatusResp) =
        { status := 200
          body := Json.obj [("data",
            Json.obj [("data", Json.obj [("up_count", Json.int 7)])])] } :=
  status_code_never_inspected envWithKey
    (Json.obj [("data", Json.obj [("up_count", Json.int 7)])])
    (Json.obj [("up_count", Json.int 7)]) 7 rfl rfl

end Relay
